import Mathlib

/-!
Verification of the gateway/HTTP/cache core of a Discord client library
(Rust sources: `gateway.rs`, `http.rs`, `enums.rs`, `state.rs`, `_types.rs`).

The Rust code is shallowly embedded: JSON trees (`serde_json::Value`) become
the inductive `Json`; `i64` bit masks become their unsigned 64-bit patterns
(`Nat` below `2^64`, with complement as xor against the all-ones mask);
stateful methods on `Gateway`, `HTTPClient` and `State` become pure functions
that take and return the state record; fallible Rust functions returning
`Result` become `Except`.
-/

set_option maxRecDepth 4000

/-- The all-ones 64-bit pattern: `u64::MAX`, i.e. `-1` as an `i64` bit pattern. -/
def U64_MAX : Nat := 2 ^ 64 - 1

/-- Bitwise complement on 64-bit patterns, the embedding of Rust `!x` on `i64`
viewed through its unsigned bit pattern. -/
def i64_not (x : Nat) : Nat := x ^^^ U64_MAX

/-- Numbers as stored by `serde_json::Value::Number`: integers (covering the
`PosInt`/`NegInt` representations) or floating-point values, the latter
embedded as rationals (every `f64` used by this code is exactly representable). -/
inductive JNum where
  | int (i : Int)
  | float (q : Rat)
deriving Repr, DecidableEq

/-- The embedding of `serde_json::Value`. -/
inductive Json where
  | null
  | bool (b : Bool)
  | num (n : JNum)
  | str (s : String)
  | arr (elems : List Json)
  | obj (fields : List (String × Json))
deriving Repr

/-- `value[key]` on `serde_json::Value`: field lookup on objects, and
`Value::Null` for a missing key or a non-object receiver. -/
def Json.index (j : Json) (key : String) : Json :=
  match j with
  | .obj fields =>
    match fields.lookup key with
    | some v => v
    | none => .null
  | _ => .null

/-- `Value::as_u64`: `Some` exactly when the value is an integer number that
fits in `u64`. -/
def Json.as_u64 : Json → Option Nat
  | .num (.int i) => if 0 ≤ i ∧ i < (2 : Int) ^ 64 then some i.toNat else none
  | _ => none

/-- `Value::as_f64`: integer and floating numbers convert, everything else is
`None`. -/
def Json.as_f64 : Json → Option Rat
  | .num (.int i) => some (i : Rat)
  | .num (.float q) => some q
  | _ => none

/-- `Value::as_str`. -/
def Json.as_str : Json → Option String
  | .str s => some s
  | _ => none

/-- The internal error enum of `errors.rs` (`DiscordError`).  The transport
error payloads (`reqwest::Error`, `tungstenite::Error`, `serde_json::Error`)
are embedded as strings. -/
inductive DiscordError where
  | Http (msg : String)
  | WebSocket (msg : String)
  | Json (msg : String)
  | Gateway (msg : String)
  | InvalidData (msg : String)
  | ConnectionClosed (code : Int) (reason : String)
  | RateLimited (retry_after : Rat)
  | Forbidden
  | NotFound
  | ServerError
deriving Repr

/-- `GatewayOpcode` from `gateway.rs`. -/
inductive GatewayOpcode where
  | Dispatch
  | Heartbeat
  | Identify
  | PresenceUpdate
  | VoiceStateUpdate
  | Resume
  | Reconnect
  | RequestGuildMembers
  | InvalidSession
  | Hello
  | HeartbeatAck
deriving Repr, DecidableEq

/-- `GatewayOpcode::from_u64`. -/
def GatewayOpcode.from_u64 (value : Nat) : Option GatewayOpcode :=
  match value with
  | 0 => some .Dispatch
  | 1 => some .Heartbeat
  | 2 => some .Identify
  | 3 => some .PresenceUpdate
  | 4 => some .VoiceStateUpdate
  | 6 => some .Resume
  | 7 => some .Reconnect
  | 8 => some .RequestGuildMembers
  | 9 => some .InvalidSession
  | 10 => some .Hello
  | 11 => some .HeartbeatAck
  | _ => none

/-- `GatewayOpcode as u8` (the discriminant values fixed in `gateway.rs`). -/
def GatewayOpcode.toNat : GatewayOpcode → Nat
  | .Dispatch => 0
  | .Heartbeat => 1
  | .Identify => 2
  | .PresenceUpdate => 3
  | .VoiceStateUpdate => 4
  | .Resume => 6
  | .Reconnect => 7
  | .RequestGuildMembers => 8
  | .InvalidSession => 9
  | .Hello => 10
  | .HeartbeatAck => 11

/-- `const GATEWAY_VERSION: u8 = 10`. -/
def GATEWAY_VERSION : Nat := 10

/-- `const GATEWAY_ENCODING: &str = "json"`. -/
def GATEWAY_ENCODING : String := "json"

/-- `Intents` (`enums.rs`): a 64-bit capability mask.  The Rust field is an
`i64`; it is embedded as its unsigned bit pattern. -/
structure Intents where
  value : Nat
deriving Repr, DecidableEq

/-- The flag-name table inside `Intents::new`: maps a keyword-argument name to
its bit, or `none` for an unknown name. -/
def Intents.flag_of_name (key : String) : Option Nat :=
  match key with
  | "guilds" => some (1 <<< 0)
  | "members" => some (1 <<< 1)
  | "moderation" | "bans" => some (1 <<< 2)
  | "emojis" | "emojis_and_stickers" | "expressions" => some (1 <<< 3)
  | "integrations" => some (1 <<< 4)
  | "webhooks" => some (1 <<< 5)
  | "invites" => some (1 <<< 6)
  | "voice_states" => some (1 <<< 7)
  | "presences" => some (1 <<< 8)
  | "messages" | "guild_messages" => some (1 <<< 9)
  | "dm_messages" => some (1 <<< 12)
  | "reactions" | "guild_reactions" => some (1 <<< 10)
  | "dm_reactions" => some (1 <<< 13)
  | "typing" | "guild_typing" => some (1 <<< 11)
  | "dm_typing" => some (1 <<< 14)
  | "message_content" => some (1 <<< 15)
  | "guild_scheduled_events" => some (1 <<< 16)
  | "auto_moderation" | "auto_moderation_configuration" => some (1 <<< 20)
  | "auto_moderation_execution" => some (1 <<< 21)
  | "polls" | "guild_polls" => some (1 <<< 24)
  | "dm_polls" => some (1 <<< 25)
  | _ => none

/-- The per-flag update inside `Intents::new`'s loop:
`if bool_val { value |= flag } else { value &= !flag }`. -/
def Intents.set_flag (value flag : Nat) (b : Bool) : Nat :=
  if b then value ||| flag else value &&& i64_not flag

/-- The kwargs loop of `Intents::new`: folds the named overrides onto the mask,
failing on the first unknown name with the error message built in `enums.rs`. -/
def Intents.apply_kwargs (value : Nat) : List (String × Bool) → Except String Nat
  | [] => .ok value
  | (key, b) :: rest =>
    match Intents.flag_of_name key with
    | some flag => Intents.apply_kwargs (Intents.set_flag value flag b) rest
    | none => .error ("'" ++ key ++ "' is not a valid flag name.")

/-- `Intents::new(value, **kwargs)`. -/
def Intents.new (value : Nat) (kwargs : List (String × Bool)) : Except String Intents :=
  (Intents.apply_kwargs value kwargs).map Intents.mk

/-- `Intents::all()`. -/
def Intents.all : Intents :=
  { value := (1 <<< 0) ||| (1 <<< 1) ||| (1 <<< 2) ||| (1 <<< 3) ||| (1 <<< 4) |||
             (1 <<< 5) ||| (1 <<< 6) ||| (1 <<< 7) ||| (1 <<< 8) ||| (1 <<< 9) |||
             (1 <<< 10) ||| (1 <<< 11) ||| (1 <<< 12) ||| (1 <<< 13) ||| (1 <<< 14) |||
             (1 <<< 15) ||| (1 <<< 16) ||| (1 <<< 20) ||| (1 <<< 21) ||| (1 <<< 24) ||| (1 <<< 25) }

/-- `Intents::none()`. -/
def Intents.zero : Intents := { value := 0 }

/-- `Intents::default()`: `all()` with the presences (bit 8), members (bit 1)
and message-content (bit 15) bits cleared. -/
def Intents.default : Intents :=
  { value := ((Intents.all.value &&& i64_not (1 <<< 8)) &&& i64_not (1 <<< 1)) &&& i64_not (1 <<< 15) }

/-- The bit positions named in the flag table of `enums.rs` (the known flags). -/
def Intents.known_bits : List Nat :=
  [0, 1, 2, 3, 4, 5, 6, 7, 8, 9, 10, 11, 12, 13, 14, 15, 16, 20, 21, 24, 25]

/-- One inbound websocket message, as seen by `Gateway::receive`.  Text and
binary frames carry the outcome of `serde_json::from_str` on their (UTF-8
decoded) contents; a close frame carries the optional close code and reason. -/
inductive WsMessage where
  | text (parsed : Except String Json)
  | binary (parsed : Except String Json)
  | close (frame : Option (Int × String))
  | other
deriving Repr

/-- The websocket stream held in the gateway's `ws` slot: the inbound messages
not yet consumed by `receive`, and the frames written so far by `send_json`. -/
structure Socket where
  inbox : List WsMessage
  sent : List Json
deriving Repr

/-- `std::env::consts::OS`, fixed at build time; its exact value is irrelevant
to every property below. -/
def ENV_CONSTS_OS : String := "linux"

/-- The `Gateway` state (`gateway.rs`): the optional socket slot and the
session bookkeeping fields.  Each `Arc<RwLock<_>>` cell is embedded as the
plain value it guards. -/
structure Gateway where
  ws : Option Socket
  token : String
  intents : Intents
  sequence : Option Nat
  session_id : Option String
  heartbeat_interval : Option Nat
  last_heartbeat_ack : Bool
deriving Repr

/-- `Gateway::new(token, intents)`. -/
def Gateway.new (token : String) (intents : Intents) : Gateway :=
  { ws := none
    token := token
    intents := intents
    sequence := none
    session_id := none
    heartbeat_interval := none
    last_heartbeat_ack := true }

/-- The URL built by `Gateway::connect`:
`format!("{}/?v={}&encoding={}", gateway_url, GATEWAY_VERSION, GATEWAY_ENCODING)`. -/
def Gateway.connect_url (gateway_url : String) : String :=
  gateway_url ++ "/?v=" ++ Nat.repr GATEWAY_VERSION ++ "&encoding=" ++ GATEWAY_ENCODING

/-- `Gateway::send_json`: writes the frame when the socket slot is occupied and
is a silent no-op when it is empty; in either case the result is `Ok`.  (The
transport write itself is modelled as succeeding.) -/
def Gateway.send_json (g : Gateway) (data : Json) : Except DiscordError Gateway :=
  match g.ws with
  | some sock => .ok { g with ws := some { sock with sent := sock.sent ++ [data] } }
  | none => .ok g

/-- The Identify frame built by `Gateway::send_identify`. -/
def Gateway.identify_payload (g : Gateway) : Json :=
  .obj [("op", .num (.int (GatewayOpcode.Identify.toNat : Nat))),
        ("d", .obj [("token", .str g.token),
                    ("intents", .num (.int (g.intents.value : Nat))),
                    ("properties", .obj [("$os", .str ENV_CONSTS_OS),
                                         ("$browser", .str "discord.py-rust"),
                                         ("$device", .str "discord.py-rust")])])]

/-- `Gateway::send_identify`. -/
def Gateway.send_identify (g : Gateway) : Except DiscordError Gateway :=
  g.send_json g.identify_payload

/-- The Heartbeat frame built by `Gateway::send_heartbeat`: `d` is the last
seen sequence, or JSON null when none. -/
def Gateway.heartbeat_payload (g : Gateway) : Json :=
  .obj [("op", .num (.int (GatewayOpcode.Heartbeat.toNat : Nat))),
        ("d", match g.sequence with
              | some n => .num (.int (n : Nat))
              | none => .null)]

/-- `Gateway::send_heartbeat`: clears the ack flag, then sends the heartbeat
frame via `send_json`. -/
def Gateway.send_heartbeat (g : Gateway) : Except DiscordError Gateway :=
  Gateway.send_json { g with last_heartbeat_ack := false } g.heartbeat_payload

/-- `Gateway::receive`: with no socket, or an exhausted stream, returns
`Ok(None)`; a text/binary frame yields its parsed JSON (a parse failure is a
`Json` error); a close frame fails with `ConnectionClosed`, defaulting to code
1000 and an empty reason.  The returned `Gateway` reflects the consumed
message. -/
def Gateway.receive (g : Gateway) : Except DiscordError (Option Json × Gateway) :=
  match g.ws with
  | some sock =>
    match sock.inbox with
    | msg :: rest =>
      let g' : Gateway := { g with ws := some { sock with inbox := rest } }
      match msg with
      | .text parsed =>
        match parsed with
        | .ok data => .ok (some data, g')
        | .error e => .error (.Json e)
      | .binary parsed =>
        match parsed with
        | .ok data => .ok (some data, g')
        | .error e => .error (.Json e)
      | .close frame =>
        .error (.ConnectionClosed ((frame.map Prod.fst).getD 1000)
                                  ((frame.map Prod.snd).getD ""))
      | .other => .ok (none, g')
    | [] => .ok (none, g)
  | none => .ok (none, g)

/-- The sequence bookkeeping at the top of `Gateway::handle_payload`:
`if let Some(seq) = payload["s"].as_u64() { *self.sequence = Some(seq) }`. -/
def Gateway.seq_step (g : Gateway) (payload : Json) : Gateway :=
  match (payload.index "s").as_u64 with
  | some seq => { g with sequence := some seq }
  | none => g

/-- The Dispatch arm of `Gateway::handle_payload`: on a `READY` event, capture
`d.session_id`. -/
def Gateway.dispatch_step (g : Gateway) (payload : Json) : Gateway :=
  match (payload.index "t").as_str with
  | some event_name =>
    if event_name = "READY" then
      match ((payload.index "d").index "session_id").as_str with
      | some session_id => { g with session_id := some session_id }
      | none => g
    else g
  | none => g

/-- `Gateway::handle_payload`: reads `op` (defaulting a missing or non-integer
value to 0), updates the sequence from `s`, then branches on the opcode.
Hello records the heartbeat interval (default 41250) and sends Identify;
HeartbeatAck sets the ack flag; Dispatch captures the READY session id; the
Reconnect and InvalidSession arms are empty in the source. -/
def Gateway.handle_payload (g : Gateway) (payload : Json) : Except DiscordError Gateway :=
  let op := (payload.index "op").as_u64.getD 0
  let opcode := GatewayOpcode.from_u64 op
  let g1 := g.seq_step payload
  match opcode with
  | some .Hello =>
    let heartbeat_interval := (((payload.index "d").index "heartbeat_interval").as_u64).getD 41250
    Gateway.send_identify { g1 with heartbeat_interval := some heartbeat_interval }
  | some .HeartbeatAck => .ok { g1 with last_heartbeat_ack := true }
  | some .Dispatch => .ok (g1.dispatch_step payload)
  | some .Reconnect => .ok g1
  | some .InvalidSession => .ok g1
  | _ => .ok g1

/-- The response-classification tail of `HTTPClient::request` (`http.rs`
lines 66–82), as a function of the HTTP status and the parsed response body:
success statuses (2xx) return the body, and every other status maps to the
error chosen by the `match status.as_u16()` arms.  (The `Display` of the
other-status message in Rust prints the status code followed by its canonical
reason; the embedding keeps the code.) -/
def HTTPClient.request_classify (status : Nat) (body : Json) : Except DiscordError Json :=
  if 200 ≤ status ∧ status ≤ 299 then
    .ok body
  else if status = 403 then .error .Forbidden
  else if status = 404 then .error .NotFound
  else if status = 429 then
    .error (.RateLimited (((body.index "retry_after").as_f64).getD 1))
  else if 500 ≤ status ∧ status ≤ 599 then .error .ServerError
  else .error (.InvalidData ("HTTP error: " ++ Nat.repr status))

/-- The spec's wording of the `request()` outcome, written from §4.3 / C3: on
a non-success status the error is determined by the status code (403
Forbidden, 404 NotFound, 429 RateLimited with the body's `retry_after`,
500–599 ServerError, otherwise a generic invalid-data error carrying the
status code); a success status returns the parsed body. -/
def spec_request_outcome (status : Nat) (body : Json) : Except DiscordError Json :=
  if ¬ (200 ≤ status ∧ status ≤ 299) then
    if status = 403 then .error .Forbidden
    else if status = 404 then .error .NotFound
    else if status = 429 then
      .error (.RateLimited (((body.index "retry_after").as_f64).getD 1))
    else if 500 ≤ status ∧ status ≤ 599 then .error .ServerError
    else .error (.InvalidData ("HTTP error: " ++ Nat.repr status))
  else .ok body

/-- The `State` cache (`state.rs`): three keyed stores plus the session's own
user id.  Each `DashMap` is embedded as an association list where an insert
prepends and a lookup takes the most recent binding. -/
structure State where
  guilds : List (Nat × Json)
  users : List (Nat × Json)
  channels : List (Nat × Json)
  user_id : Option Nat
deriving Repr

/-- `State::new()`. -/
def State.new : State := { guilds := [], users := [], channels := [], user_id := none }

/-- `State::add_guild` (`DashMap::insert`). -/
def State.add_guild (s : State) (id : Nat) (data : Json) : State :=
  { s with guilds := (id, data) :: s.guilds }

/-- `State::get_guild`. -/
def State.get_guild (s : State) (id : Nat) : Option Json :=
  s.guilds.lookup id

/-- `State::remove_guild`. -/
def State.remove_guild (s : State) (id : Nat) : State :=
  { s with guilds := s.guilds.filter (fun kv => kv.1 ≠ id) }

/-- `State::add_user`. -/
def State.add_user (s : State) (id : Nat) (data : Json) : State :=
  { s with users := (id, data) :: s.users }

/-- `State::get_user`. -/
def State.get_user (s : State) (id : Nat) : Option Json :=
  s.users.lookup id

/-- `State::add_channel`. -/
def State.add_channel (s : State) (id : Nat) (data : Json) : State :=
  { s with channels := (id, data) :: s.channels }

/-- `State::get_channel`. -/
def State.get_channel (s : State) (id : Nat) : Option Json :=
  s.channels.lookup id

/-- `State::clear`: empties the three stores (and touches nothing else). -/
def State.clear (s : State) : State :=
  { s with guilds := [], users := [], channels := [] }

/-- A Python-side source value offered to `Snowflake::extract_bound`
(`_types.rs`): an arbitrary-precision integer, a string, or any other object. -/
inductive PyObject where
  | int (i : Int)
  | str (s : String)
  | other
deriving Repr

/-- The two Python exception kinds raised by `Snowflake::extract_bound`. -/
inductive PyErrKind where
  | typeError (msg : String)
  | valueError (msg : String)
deriving Repr, DecidableEq

/-- The optional leading `+` accepted by Rust's unsigned integer parser. -/
def strip_plus (l : List Char) : List Char :=
  match l with
  | [] => []
  | c :: rest => if c = '+' then rest else c :: rest

/-- Rust `str::parse::<u64>()`: an optional leading `+`, then one or more
decimal digits, with the value required to fit in 64 bits. -/
def parse_u64 (s : String) : Option Nat :=
  if (strip_plus s.data) ≠ [] ∧ (strip_plus s.data).all Char.isDigit then
    if (strip_plus s.data).foldl (fun a c => a * 10 + (c.toNat - 48)) 0 < 2 ^ 64 then
      some ((strip_plus s.data).foldl (fun a c => a * 10 + (c.toNat - 48)) 0)
    else none
  else none

/-- `Snowflake::extract_bound`: first try the source as a `u64` (a Python int
in `[0, 2^64)`); failing that, try it as a string and parse; a non-numeric
string is a `ValueError` naming the string, and anything that is neither an
in-range int nor a string is a `TypeError`. -/
def Snowflake.extract_bound : PyObject → Except PyErrKind Nat
  | .int i =>
    if 0 ≤ i ∧ i < (2 : Int) ^ 64 then .ok i.toNat
    else .error (.typeError "Snowflake must be int or str")
  | .str s =>
    match parse_u64 s with
    | some id => .ok id
    | none => .error (.valueError ("Invalid snowflake string: " ++ s))
  | .other => .error (.typeError "Snowflake must be int or str")

/-! ## Helper lemmas -/

theorem Gateway.send_json_ok (g : Gateway) (d : Json) :
    ∃ g', g.send_json d = .ok g' ∧ g'.sequence = g.sequence ∧
      g'.session_id = g.session_id ∧ g'.last_heartbeat_ack = g.last_heartbeat_ack := by
  unfold Gateway.send_json
  cases g.ws <;> exact ⟨_, rfl, rfl, rfl, rfl⟩

theorem Gateway.send_identify_ok (g : Gateway) :
    ∃ g', g.send_identify = .ok g' ∧ g'.sequence = g.sequence ∧
      g'.session_id = g.session_id ∧ g'.last_heartbeat_ack = g.last_heartbeat_ack :=
  Gateway.send_json_ok g g.identify_payload

theorem Gateway.dispatch_step_sequence (g : Gateway) (p : Json) :
    (g.dispatch_step p).sequence = g.sequence := by
  unfold Gateway.dispatch_step
  rcases (p.index "t").as_str with _ | name
  · rfl
  · dsimp only
    split
    · rcases ((p.index "d").index "session_id").as_str with _ | sid <;> rfl
    · rfl

/-! ## Claim theorems -/

/-- C1 counterexample: the claim says handling a frame never decreases the
stored sequence, but `handle_payload` overwrites it unconditionally.  With a
stored sequence of 5 and a frame carrying `s = 3`, the stored sequence after
handling is 3, which is smaller than 5. -/
theorem C1_counterexample :
    ((Json.obj [("op", .num (.int 0)), ("s", .num (.int 3))]).index "s").as_u64 = some 3 ∧
    (Gateway.handle_payload
        { ws := none, token := "t", intents := ⟨0⟩, sequence := some 5,
          session_id := none, heartbeat_interval := none, last_heartbeat_ack := true }
        (.obj [("op", .num (.int 0)), ("s", .num (.int 3))])
      = .ok { ws := none, token := "t", intents := ⟨0⟩, sequence := some 3,
              session_id := none, heartbeat_interval := none, last_heartbeat_ack := true }) ∧
    ¬ (5 : Nat) ≤ 3 :=
  ⟨rfl, rfl, by decide⟩

/-- C1 (amended): every inbound frame carrying a sequence number `s` sets the
session's stored sequence to exactly `s` (regardless of the previously stored
value), and handling succeeds. -/
theorem C1_amended_thm (g : Gateway) (p : Json) (s : Nat)
    (h : (p.index "s").as_u64 = some s) :
    ∃ g', Gateway.handle_payload g p = .ok g' ∧ g'.sequence = some s := by
  have hseq : (g.seq_step p).sequence = some s := by
    unfold Gateway.seq_step
    rw [h]
  rcases hop : GatewayOpcode.from_u64 ((p.index "op").as_u64.getD 0) with _ | opc
  · exact ⟨g.seq_step p, by simp only [Gateway.handle_payload, hop], hseq⟩
  · cases opc
    case Hello =>
      obtain ⟨g', hg', hs', _, _⟩ :=
        Gateway.send_identify_ok
          { g.seq_step p with
            heartbeat_interval := some ((((p.index "d").index "heartbeat_interval").as_u64).getD 41250) }
      refine ⟨g', ?_, ?_⟩
      · simp only [Gateway.handle_payload, hop]
        exact hg'
      · rw [hs']
        exact hseq
    case HeartbeatAck =>
      exact ⟨{ g.seq_step p with last_heartbeat_ack := true },
             by simp only [Gateway.handle_payload, hop], hseq⟩
    case Dispatch =>
      refine ⟨(g.seq_step p).dispatch_step p, ?_, ?_⟩
      · simp only [Gateway.handle_payload, hop]
      · rw [Gateway.dispatch_step_sequence]
        exact hseq
    all_goals
      exact ⟨g.seq_step p, by simp only [Gateway.handle_payload, hop], hseq⟩

/-- C1 witness: a fresh session handling a frame with `s = 7` stores
sequence 7. -/
theorem C1_witness :
    ∃ g', Gateway.handle_payload (Gateway.new "t" ⟨0⟩) (.obj [("s", .num (.int 7))]) = .ok g' ∧
      g'.sequence = some 7 :=
  C1_amended_thm (Gateway.new "t" ⟨0⟩) (.obj [("s", .num (.int 7))]) 7 rfl

/-- C2: the spec requires the InvalidSession (opcode 9) handler to discard the
stored sequence and session id, but the `InvalidSession` arm of
`handle_payload` is empty: at a state holding sequence 42 and session id
"abc", handling `{"op": 9}` returns the state unchanged, both fields still
present. -/
theorem C2_code_evaluation :
    Gateway.handle_payload
        { ws := none, token := "t", intents := ⟨0⟩, sequence := some 42,
          session_id := some "abc", heartbeat_interval := none, last_heartbeat_ack := true }
        (.obj [("op", .num (.int 9))])
      = .ok { ws := none, token := "t", intents := ⟨0⟩, sequence := some 42,
              session_id := some "abc", heartbeat_interval := none, last_heartbeat_ack := true } :=
  rfl

/-- C9: a frame whose `op` field is missing or not an unsigned integer is not
a protocol error: `unwrap_or(0)` makes it opcode 0, so `handle_payload` runs
the Dispatch arm (after the usual sequence bookkeeping) and succeeds. -/
theorem C9_thm (g : Gateway) (p : Json) (h : (p.index "op").as_u64 = none) :
    GatewayOpcode.from_u64 0 = some .Dispatch ∧
    Gateway.handle_payload g p = .ok ((g.seq_step p).dispatch_step p) := by
  refine ⟨rfl, ?_⟩
  unfold Gateway.handle_payload
  rw [h]
  rfl

/-- C9 witness: the empty JSON object (no `op` at all) is handled as a
Dispatch frame and succeeds. -/
theorem C9_witness :
    GatewayOpcode.from_u64 0 = some .Dispatch ∧
    Gateway.handle_payload (Gateway.new "t" ⟨0⟩) (.obj [])
      = .ok (((Gateway.new "t" ⟨0⟩).seq_step (.obj [])).dispatch_step (.obj [])) :=
  C9_thm (Gateway.new "t" ⟨0⟩) (.obj []) rfl

/-- C10: with an empty socket slot every gateway operation still succeeds:
`send_identify` and `send_heartbeat` return `Ok` without sending a frame,
`receive` returns `Ok(None)`, and `send_heartbeat` still clears the
heartbeat-acknowledged flag. -/
theorem C10_thm (g : Gateway) (h : g.ws = none) :
    Gateway.send_identify g = .ok g ∧
    Gateway.send_heartbeat g = .ok { g with last_heartbeat_ack := false } ∧
    Gateway.receive g = .ok (none, g) := by
  obtain ⟨ws, token, intents, sequence, session_id, hbi, ack⟩ := g
  have h' : ws = none := h
  subst h'
  exact ⟨rfl, rfl, rfl⟩

/-- C10 witness: the operations on a freshly constructed (unconnected)
gateway. -/
theorem C10_witness :
    Gateway.send_identify (Gateway.new "t" ⟨0⟩) = .ok (Gateway.new "t" ⟨0⟩) ∧
    Gateway.send_heartbeat (Gateway.new "t" ⟨0⟩)
      = .ok { Gateway.new "t" ⟨0⟩ with last_heartbeat_ack := false } ∧
    Gateway.receive (Gateway.new "t" ⟨0⟩) = .ok (none, Gateway.new "t" ⟨0⟩) :=
  C10_thm (Gateway.new "t" ⟨0⟩) rfl

/-- C3: the outcome of `request()` matches the spec's status-determined
classification for every status and body (403 Forbidden, 404 NotFound, 429
RateLimited with the body's `retry_after`, 500–599 ServerError, other
non-success statuses a generic invalid-data error carrying the status code,
success the parsed body), and a 429 whose body is `{"retry_after": 2.5}`
yields a RateLimited error carrying exactly 5/2. -/
theorem C3_thm (status : Nat) (body : Json) :
    HTTPClient.request_classify status body = spec_request_outcome status body ∧
    HTTPClient.request_classify 429 (.obj [("retry_after", .num (.float (5 / 2)))])
      = .error (.RateLimited (5 / 2)) := by
  refine ⟨?_, rfl⟩
  unfold HTTPClient.request_classify spec_request_outcome
  by_cases hs : 200 ≤ status ∧ status ≤ 299
  · simp [hs]
  · simp [hs]

/-- C4: `Intents::default()` clears exactly the presences (8), members (1) and
message-content (15) bits of `all()`: those three bits are clear, every other
known bit is still set, and `all() & !default()` is exactly the three-bit
mask. -/
theorem C4_thm :
    Intents.default.value.testBit 8 = false ∧
    Intents.default.value.testBit 1 = false ∧
    Intents.default.value.testBit 15 = false ∧
    (Intents.known_bits.all fun i =>
      decide (i = 8) || decide (i = 1) || decide (i = 15)
        || Intents.default.value.testBit i) = true ∧
    Intents.all.value &&& i64_not Intents.default.value
      = ((1 <<< 1) ||| (1 <<< 8) ||| (1 <<< 15)) := by
  decide

theorem Intents.apply_kwargs_error (base : Nat) (kwargs : List (String × Bool))
    (hkv : ∃ kv ∈ kwargs, Intents.flag_of_name kv.1 = none) :
    ∃ key, key ∈ kwargs.map Prod.fst ∧ Intents.flag_of_name key = none ∧
      Intents.apply_kwargs base kwargs
        = .error ("'" ++ key ++ "' is not a valid flag name.") := by
  induction kwargs generalizing base with
  | nil => simp at hkv
  | cons kv rest ih =>
    obtain ⟨key, b⟩ := kv
    cases hf : Intents.flag_of_name key with
    | none =>
      exact ⟨key, by simp, hf, by simp [Intents.apply_kwargs, hf]⟩
    | some flag =>
      have hrest : ∃ kv ∈ rest, Intents.flag_of_name kv.1 = none := by
        rcases hkv with ⟨kv', hmem, hkn⟩
        rcases List.mem_cons.mp hmem with heq | hmem'
        · subst heq
          simp only at hkn
          rw [hkn] at hf
          cases hf
        · exact ⟨kv', hmem', hkn⟩
      obtain ⟨k, hk1, hk2, hk3⟩ := ih (Intents.set_flag base flag b) hrest
      exact ⟨k, by simp [hk1], hk2, by simp [Intents.apply_kwargs, hf, hk3]⟩

theorem Intents.apply_kwargs_known (base : Nat) (kwargs : List (String × Bool))
    (h : ∀ kv ∈ kwargs, (Intents.flag_of_name kv.1).isSome) :
    Intents.apply_kwargs base kwargs
      = .ok (kwargs.foldl
          (fun v kv => Intents.set_flag v ((Intents.flag_of_name kv.1).getD 0) kv.2) base) := by
  induction kwargs generalizing base with
  | nil => rfl
  | cons kv rest ih =>
    obtain ⟨key, b⟩ := kv
    have hk := h (key, b) (by simp)
    cases hf : Intents.flag_of_name key with
    | none =>
      rw [hf] at hk
      simp at hk
    | some flag =>
      simp only [Intents.apply_kwargs, hf, List.foldl_cons, hf, Option.getD_some]
      exact ih _ (fun kv hm => h kv (by simp [hm]))

/-- C5: constructing an `Intents` from a base mask and named boolean fields
fails with the descriptive error naming an unknown key whenever any field name
is unknown (the failure produces no mask, so the caller's base is untouched);
when every name is known, the result is the base with each named bit set or
cleared per its boolean. -/
theorem C5_thm (base : Nat) (kwargs : List (String × Bool)) :
    ((∃ kv ∈ kwargs, Intents.flag_of_name kv.1 = none) →
      ∃ key, key ∈ kwargs.map Prod.fst ∧ Intents.flag_of_name key = none ∧
        Intents.new base kwargs = .error ("'" ++ key ++ "' is not a valid flag name.")) ∧
    ((∀ kv ∈ kwargs, (Intents.flag_of_name kv.1).isSome) →
      Intents.new base kwargs
        = .ok ⟨kwargs.foldl
            (fun v kv => Intents.set_flag v ((Intents.flag_of_name kv.1).getD 0) kv.2) base⟩) := by
  constructor
  · intro hkv
    obtain ⟨key, h1, h2, h3⟩ := Intents.apply_kwargs_error base kwargs hkv
    refine ⟨key, h1, h2, ?_⟩
    unfold Intents.new
    rw [h3]
    rfl
  · intro h
    unfold Intents.new
    rw [Intents.apply_kwargs_known base kwargs h]
    rfl

/-- C5 witness: the unknown name `not_a_flag` fails with the error naming it,
while the known name `guilds` applies its bit onto the base mask. -/
theorem C5_witness :
    Intents.new 0 [("not_a_flag", true)]
      = .error "'not_a_flag' is not a valid flag name." ∧
    Intents.new 0 [("guilds", true)] = .ok ⟨1⟩ := by
  constructor
  · obtain ⟨key, hmem, hkn, heq⟩ :=
      (C5_thm 0 [("not_a_flag", true)]).1 ⟨("not_a_flag", true), by simp, rfl⟩
    simp only [List.map_cons, List.map_nil, List.mem_singleton] at hmem
    subst hmem
    exact heq
  · exact (C5_thm 0 [("guilds", true)]).2 (by decide)

/-- C6 counterexample: the claim says the connect URL is the base URL followed
immediately by `?v=10&encoding=json`, but `Gateway::connect` inserts a `/`
first, so on the usual gateway base the two differ. -/
theorem C6_counterexample :
    Gateway.connect_url "wss://gateway.discord.gg"
      ≠ "wss://gateway.discord.gg" ++ "?v=10&encoding=json" := by
  decide

/-- C6 (amended): for every gateway base URL `u`, the engine connects to
exactly `u` followed by `/?v=10&encoding=json`. -/
theorem C6_amended_thm (u : String) :
    Gateway.connect_url u = u ++ "/?v=10&encoding=json" := by
  unfold Gateway.connect_url
  rw [String.append_assoc, String.append_assoc, String.append_assoc]
  rfl

/-- C7: on each of the three cache stores, a `put` followed by a `get` of the
same identifier returns the record just stored, and after `clear()` every
`get` on all three stores returns nothing. -/
theorem C7_thm (s : State) (id : Nat) (r : Json) :
    State.get_guild (State.add_guild s id r) id = some r ∧
    State.get_user (State.add_user s id r) id = some r ∧
    State.get_channel (State.add_channel s id r) id = some r ∧
    (∀ i : Nat, State.get_guild (State.clear s) i = none) ∧
    (∀ i : Nat, State.get_user (State.clear s) i = none) ∧
    (∀ i : Nat, State.get_channel (State.clear s) i = none) := by
  refine ⟨?_, ?_, ?_, fun i => rfl, fun i => rfl, fun i => rfl⟩ <;>
    simp [State.get_guild, State.add_guild, State.get_user, State.add_user,
          State.get_channel, State.add_channel, List.lookup]

theorem parse_u64_of_digits (s : String) (n : Nat)
    (hne : s.data ≠ [])
    (hdig : s.data.all Char.isDigit = true)
    (hval : s.data.foldl (fun a c => a * 10 + (c.toNat - 48)) 0 = n)
    (hn : n < 2 ^ 64) :
    parse_u64 s = some n := by
  obtain ⟨c, rest, hd⟩ : ∃ c rest, s.data = c :: rest := by
    cases hcase : s.data with
    | nil => exact absurd hcase hne
    | cons c rest => exact ⟨c, rest, rfl⟩
  have hc : c.isDigit = true := by
    rw [hd] at hdig
    simp only [List.all_cons, Bool.and_eq_true] at hdig
    exact hdig.1
  have hplus : ¬ c = '+' := by
    intro hcc
    rw [hcc] at hc
    exact absurd hc (by decide)
  have hds : strip_plus s.data = s.data := by
    rw [hd]
    simp only [strip_plus]
    exact if_neg hplus
  unfold parse_u64
  rw [hds, if_pos ⟨hne, hdig⟩, hval, if_pos hn]

/-- C8: identifier parsing accepts any unsigned 64-bit integer and any
decimal-digit string denoting such an integer (the two representations of the
same number parse to the same identifier), rejects every out-of-range integer
and every string the `u64` parser refuses — in particular `"abc"` — with a
type/format error, and rejects any non-int non-string source with a type
error. -/
theorem C8_thm (n : Nat) (s : String)
    (hn : n < 2 ^ 64)
    (hne : s.data ≠ [])
    (hdig : s.data.all Char.isDigit = true)
    (hval : s.data.foldl (fun a c => a * 10 + (c.toNat - 48)) 0 = n) :
    Snowflake.extract_bound (.int (n : Int)) = .ok n ∧
    Snowflake.extract_bound (.str s) = .ok n ∧
    Snowflake.extract_bound (.str "abc")
      = .error (.valueError "Invalid snowflake string: abc") ∧
    (∀ i : Int, (i < 0 ∨ (2 : Int) ^ 64 ≤ i) →
      Snowflake.extract_bound (.int i) = .error (.typeError "Snowflake must be int or str")) ∧
    (∀ t : String, parse_u64 t = none →
      Snowflake.extract_bound (.str t)
        = .error (.valueError ("Invalid snowflake string: " ++ t))) ∧
    Snowflake.extract_bound .other = .error (.typeError "Snowflake must be int or str") := by
  refine ⟨?_, ?_, rfl, ?_, ?_, rfl⟩
  · simp only [Snowflake.extract_bound]
    rw [if_pos ⟨Int.natCast_nonneg n, by exact_mod_cast hn⟩]
    simp
  · simp only [Snowflake.extract_bound]
    rw [parse_u64_of_digits s n hne hdig hval hn]
  · intro i hi
    have hneg : ¬ (0 ≤ i ∧ i < (2 : Int) ^ 64) := by
      have h64 : ((2 : Int) ^ 64) = 18446744073709551616 := by norm_num
      rintro ⟨h1, h2⟩
      rw [h64] at h2
      rcases hi with h | h
      · omega
      · rw [h64] at h
        omega
    simp only [Snowflake.extract_bound]
    rw [if_neg hneg]
  · intro t ht
    simp only [Snowflake.extract_bound]
    rw [ht]

/-- C8 witness: `123456789012345678` parses identically from the integer and
from the string form. -/
theorem C8_witness :
    Snowflake.extract_bound (.int ((123456789012345678 : Nat) : Int))
      = .ok 123456789012345678 ∧
    Snowflake.extract_bound (.str "123456789012345678") = .ok 123456789012345678 := by
  have h := C8_thm 123456789012345678 "123456789012345678"
    (by decide) (by decide) (by decide) (by decide)
  exact ⟨h.1, h.2.1⟩
